import Mathlib

/-!
Shallow embedding of the client controller in `src/frontend/src/App.jsx`
(note mutation with optimistic concurrency, search dispatch, editing-modal
state machine, note-list cache) and proofs about its handlers.

Async handlers are modelled as pure functions from the component state and
the server's response to an `Outcome`: the new state, the requests that
were dispatched, the `alert` messages shown to the user, and the
`console.error` log lines. A response parameter of `none` models a thrown
network error; `some (status, body)` models an HTTP response, with
`response.ok` meaning status in 200..299.
-/

namespace NotesApp

/-- Server-side note record as rendered and mutated by the client. -/
structure Note where
  id : Nat
  title : String
  content : String
  is_public : Bool
  tags : String
  view_count : Nat
  version : Nat
  updated_at : String
  deriving Repr, DecidableEq

/-- The `currentNote` draft React state: exactly the fields it holds (App.jsx 17-23). -/
structure Draft where
  title : String
  content : String
  is_public : Bool
  tags : String
  version : Nat
  deriving Repr, DecidableEq

/-- The all-default draft installed at initialisation, by `openModal()` with no note, and by `closeModal` (App.jsx 17-23, 162-168, 176-182). -/
def defaultDraft : Draft :=
  { title := "", content := "", is_public := false, tags := "", version := 1 }

/-- One search result as consumed from `POST /search` response bodies. -/
structure SearchResult where
  note : Note
  relevance_score : Rat
  matched_chunks : List String
  deriving Repr, DecidableEq

/-- Body of a successful search response; the client reads `data.results` (App.jsx 80-81). -/
structure SearchResponse where
  results : List SearchResult
  deriving Repr, DecidableEq

/-- Body of `POST /notes`: exactly the four fields serialised at App.jsx 111-116. The type has no `version` and no `view_count` field, mirroring the payload object literal. -/
structure CreatePayload where
  title : String
  content : String
  is_public : Bool
  tags : String
  deriving Repr, DecidableEq

/-- Body of `POST /search` (App.jsx 71-76). -/
structure SearchPayload where
  query : String
  search_type : String
  limit : Nat
  include_content : Bool
  deriving Repr, DecidableEq

/-- A request the client dispatches. The update body is `JSON.stringify(currentNote)` (App.jsx 104), i.e. the whole `Draft`. -/
inductive Request where
  | listNotes (limit : Nat)
  | createNote (payload : CreatePayload)
  | updateNote (id : Nat) (payload : Draft)
  | deleteNote (id : Nat)
  | searchNotes (payload : SearchPayload)
  deriving Repr, DecidableEq

/-- The React component state of `App`, restricted to the fields the controller logic reads or writes. -/
structure AppState where
  notes : List Note
  loading : Bool
  isModalOpen : Bool
  editingNote : Option Note
  searchQuery : String
  searchType : String
  searchResults : List SearchResult
  isSearching : Bool
  currentNote : Draft
  deriving Repr, DecidableEq

/-- Result of running one handler to completion. -/
structure Outcome where
  state : AppState
  requests : List Request
  alerts : List String
  logs : List String
  deriving Repr, DecidableEq

/-- `response.ok` of the fetch API: HTTP status in the 200-299 range. -/
def isOk (status : Nat) : Bool := 200 ≤ status && status < 300

/-- JavaScript `String.prototype.trim`: strip leading and trailing whitespace. Defined structurally over the character list so it is kernel-computable. -/
def strTrim (s : String) : String :=
  String.mk (((s.data.dropWhile Char.isWhitespace).reverse.dropWhile Char.isWhitespace).reverse)

/-- `fetchNotes` (App.jsx 26-38): only an ok response replaces `notes`; a non-ok response is ignored; a network error is logged. `loading` ends false in every branch. -/
def fetchNotesRun (s : AppState) (resp : Option (Nat × List Note)) : Outcome :=
  match resp with
  | none =>
    { state := { s with loading := false }, requests := [Request.listNotes 50],
      alerts := [], logs := ["Failed to fetch notes:"] }
  | some (st, data) =>
    if isOk st then
      { state := { s with notes := data, loading := false },
        requests := [Request.listNotes 50], alerts := [], logs := [] }
    else
      { state := { s with loading := false }, requests := [Request.listNotes 50],
        alerts := [], logs := [] }

/-- `closeModal` (App.jsx 173-183). -/
def closeModal (s : AppState) : AppState :=
  { s with isModalOpen := false, editingNote := none, currentNote := defaultDraft }

/-- `openModal` (App.jsx 150-171): `some n` is `openModal(note)`, `none` is `openModal()`. -/
def openModal (s : AppState) (note : Option Note) : AppState :=
  match note with
  | some n =>
    { s with editingNote := some n,
             currentNote := { title := n.title, content := n.content,
                              is_public := n.is_public, tags := n.tags,
                              version := n.version },
             isModalOpen := true }
  | none =>
    { s with editingNote := none, currentNote := defaultDraft, isModalOpen := true }

/-- The single request `saveNote` dispatches once validation passes: PUT with the full draft when a note is being edited, POST with exactly title, content, is_public, tags when creating (App.jsx 98-118). -/
def saveRequest (s : AppState) : Request :=
  match s.editingNote with
  | some n => Request.updateNote n.id s.currentNote
  | none =>
    Request.createNote
      { title := s.currentNote.title, content := s.currentNote.content,
        is_public := s.currentNote.is_public, tags := s.currentNote.tags }

/-- `saveNote` (App.jsx 90-130). On an empty trimmed title or content it alerts and returns before any request. On an ok status the nested `fetchNotes` runs against `listResp` and then `closeModal`; a 409 only alerts; any other status falls through silently; a network error is logged. -/
def saveNote (s : AppState) (saveResp : Option Nat) (listResp : Option (Nat × List Note)) : Outcome :=
  if strTrim s.currentNote.title = "" ∨ strTrim s.currentNote.content = "" then
    { state := s, requests := [],
      alerts := ["Please fill in both title and content"], logs := [] }
  else
    match saveResp with
    | none =>
      { state := { s with loading := false }, requests := [saveRequest s],
        alerts := [], logs := ["Failed to save note:"] }
    | some status =>
      if isOk status then
        let o := fetchNotesRun { s with loading := true } listResp
        { state := { closeModal o.state with loading := false },
          requests := saveRequest s :: o.requests, alerts := [], logs := o.logs }
      else if status = 409 then
        { state := { s with loading := false }, requests := [saveRequest s],
          alerts := ["Note was modified by another user. Please refresh and try again."],
          logs := [] }
      else
        { state := { s with loading := false }, requests := [saveRequest s],
          alerts := [], logs := [] }

/-- `deleteNote` (App.jsx 133-147): a declined confirm is a no-op; an ok response triggers `fetchNotes`; any other outcome leaves the state untouched (a network error is logged). -/
def deleteNoteRun (s : AppState) (id : Nat) (confirmed : Bool) (delResp : Option Nat) (listResp : Option (Nat × List Note)) : Outcome :=
  if ¬ confirmed then { state := s, requests := [], alerts := [], logs := [] }
  else
    match delResp with
    | none =>
      { state := s, requests := [Request.deleteNote id], alerts := [],
        logs := ["Failed to delete note:"] }
    | some st =>
      if isOk st then
        let o := fetchNotesRun s listResp
        { state := o.state, requests := Request.deleteNote id :: o.requests,
          alerts := [], logs := o.logs }
      else
        { state := s, requests := [Request.deleteNote id], alerts := [], logs := [] }

/-- The part of `handleSearch` before the await (App.jsx 58-77): the empty-query short-circuit, and otherwise the dispatch with `isSearching` set. Returns the intermediate state and the dispatched requests. -/
def handleSearchStart (s : AppState) : AppState × List Request :=
  if strTrim s.searchQuery = "" then
    ({ s with searchResults := [] }, [])
  else
    ({ s with isSearching := true },
     [Request.searchNotes
        { query := s.searchQuery, search_type := s.searchType,
          limit := 10, include_content := true }])

/-- The continuation of `handleSearch` after the await (App.jsx 79-86): an ok body replaces the displayed results unconditionally — there is no generation check — and `isSearching` is cleared in every branch. -/
def handleSearchComplete (s : AppState) (resp : Option (Nat × SearchResponse)) : AppState × List String :=
  match resp with
  | none => ({ s with isSearching := false }, ["Search failed:"])
  | some (st, body) =>
    if isOk st then
      ({ s with searchResults := body.results, isSearching := false }, [])
    else
      ({ s with isSearching := false }, [])

/-- `handleSearch` (App.jsx 58-87) run to completion against a single response. -/
def handleSearch (s : AppState) (resp : Option (Nat × SearchResponse)) : Outcome :=
  if strTrim s.searchQuery = "" then
    { state := { s with searchResults := [] }, requests := [], alerts := [], logs := [] }
  else
    let p := handleSearchComplete { s with isSearching := true } resp
    { state := p.1,
      requests := [Request.searchNotes
        { query := s.searchQuery, search_type := s.searchType,
          limit := 10, include_content := true }],
      alerts := [], logs := p.2 }

/-- One controlled-input change in the modal (App.jsx 536, 547, 557, 569): each spreads `currentNote` and overwrites a single field. -/
inductive DraftEdit where
  | setTitle (v : String)
  | setTags (v : String)
  | setContent (v : String)
  | setIsPublic (v : Bool)
  deriving Repr, DecidableEq

/-- Apply one modal field edit to the draft. -/
def applyEdit (d : Draft) (e : DraftEdit) : Draft :=
  match e with
  | DraftEdit.setTitle v => { d with title := v }
  | DraftEdit.setTags v => { d with tags := v }
  | DraftEdit.setContent v => { d with content := v }
  | DraftEdit.setIsPublic v => { d with is_public := v }

/-- Lift a modal field edit to the component state. -/
def editDraft (s : AppState) (e : DraftEdit) : AppState :=
  { s with currentNote := applyEdit s.currentNote e }

/-- Rendered text of one excerpt (App.jsx 362): a quoted 100-character prefix with a trailing ellipsis. -/
def excerptView (chunk : String) : String := "\"" ++ chunk.take 100 ++ "...\""

/-- Excerpt block rendering (App.jsx 360-364): `matched_chunks.slice(0, 2)` mapped through `excerptView`. -/
def renderedExcerpts (chunks : List String) : List String :=
  (chunks.take 2).map excerptView

/-- A field edit never changes the draft's `version` (the spread copies it). -/
theorem applyEdit_version (d : Draft) (e : DraftEdit) : (applyEdit d e).version = d.version := by
  cases e <;> rfl

/-- Any sequence of modal field edits leaves the draft's `version` unchanged. -/
theorem foldl_editDraft_version (es : List DraftEdit) (s : AppState) :
    (es.foldl editDraft s).currentNote.version = s.currentNote.version := by
  induction es generalizing s with
  | nil => rfl
  | cons e es ih =>
    rw [List.foldl_cons, ih]
    exact applyEdit_version s.currentNote e

/-- Modal field edits never touch `editingNote`. -/
theorem foldl_editDraft_editingNote (es : List DraftEdit) (s : AppState) :
    (es.foldl editDraft s).editingNote = s.editingNote := by
  induction es generalizing s with
  | nil => rfl
  | cons e es ih =>
    rw [List.foldl_cons, ih]
    rfl

/-- `fetchNotes` always dispatches exactly the one list request. -/
theorem fetchNotesRun_requests (s : AppState) (r : Option (Nat × List Note)) :
    (fetchNotesRun s r).requests = [Request.listNotes 50] := by
  cases r with
  | none => rfl
  | some p =>
    cases p with
    | mk st data =>
      unfold fetchNotesRun
      split <;> first | rfl | (split <;> rfl)

/-- Once validation passes, the first (and only mutation) request of `saveNote` is `saveRequest s`, in every response branch. -/
theorem saveNote_requests_head (s : AppState) (saveResp : Option Nat) (listResp : Option (Nat × List Note))
    (ht : ¬ strTrim s.currentNote.title = "") (hc : ¬ strTrim s.currentNote.content = "") :
    (saveNote s saveResp listResp).requests.head? = some (saveRequest s) := by
  unfold saveNote
  rw [if_neg (by simp [ht, hc])]
  cases saveResp with
  | none => rfl
  | some st =>
    by_cases h : isOk st = true
    · simp only [h, if_true]
      rfl
    · simp only [h, Bool.false_eq_true, if_false]
      split <;> rfl

/-- Concrete note used by the witnesses. -/
def sampleNote : Note :=
  { id := 7, title := "t", content := "c", is_public := true, tags := "a,b",
    view_count := 3, version := 4, updated_at := "2024-01-01" }

/-- Concrete component state with an editing session open on `sampleNote`. -/
def editingState : AppState :=
  { notes := [sampleNote], loading := false, isModalOpen := true,
    editingNote := some sampleNote, searchQuery := "q", searchType := "keyword",
    searchResults := [], isSearching := false,
    currentNote := { title := "t2", content := "c2", is_public := true,
                     tags := "a,b", version := 4 } }

/-- Concrete create-mode state whose draft has a whitespace-only title. -/
def blankTitleState : AppState :=
  { editingState with
    editingNote := none,
    currentNote := { title := " ", content := "c", is_public := false,
                     tags := "", version := 1 } }

/-- Concrete state with a pending non-empty search query and one displayed result. -/
def searchState : AppState :=
  { notes := [], loading := false, isModalOpen := false, editingNote := none,
    searchQuery := "alpha", searchType := "semantic",
    searchResults := [{ note := sampleNote, relevance_score := 1, matched_chunks := ["old"] }],
    isSearching := false, currentNote := defaultDraft }

/-- Response body of the first-initiated search in the overlap scenario. -/
def firstResp : SearchResponse := { results := [] }

/-- Response body of the second-initiated search in the overlap scenario: one hit. -/
def secondResp : SearchResponse :=
  { results := [{ note := sampleNote, relevance_score := 1, matched_chunks := ["m"] }] }

/-- C1: when an update carries a stale version and the server answers 409, `saveNote` surfaces the conflict alert and stays in the drafting session: the modal stays as it was, `editingNote` and the draft are unchanged, the cache is untouched, and the only dispatched request is the PUT — no list refresh. -/
theorem C1_conflict_preserves_drafting (s : AppState) (n : Note) (listResp : Option (Nat × List Note))
    (hn : s.editingNote = some n)
    (ht : ¬ strTrim s.currentNote.title = "") (hc : ¬ strTrim s.currentNote.content = "") :
    (saveNote s (some 409) listResp).alerts =
        ["Note was modified by another user. Please refresh and try again."] ∧
    (saveNote s (some 409) listResp).state.isModalOpen = s.isModalOpen ∧
    (saveNote s (some 409) listResp).state.editingNote = some n ∧
    (saveNote s (some 409) listResp).state.currentNote = s.currentNote ∧
    (saveNote s (some 409) listResp).state.notes = s.notes ∧
    (saveNote s (some 409) listResp).requests = [Request.updateNote n.id s.currentNote] := by
  have h409 : isOk 409 = false := rfl
  unfold saveNote
  rw [if_neg (by simp [ht, hc])]
  simp [h409, saveRequest, hn]

/-- Witness for C1: a 409 answer to the concrete editing session on `sampleNote`. -/
theorem C1_conflict_preserves_drafting_witness :
    (saveNote editingState (some 409) none).alerts =
        ["Note was modified by another user. Please refresh and try again."] ∧
    (saveNote editingState (some 409) none).state.isModalOpen = editingState.isModalOpen ∧
    (saveNote editingState (some 409) none).state.editingNote = some sampleNote ∧
    (saveNote editingState (some 409) none).state.currentNote = editingState.currentNote ∧
    (saveNote editingState (some 409) none).state.notes = editingState.notes ∧
    (saveNote editingState (some 409) none).requests =
      [Request.updateNote sampleNote.id editingState.currentNote] :=
  C1_conflict_preserves_drafting editingState sampleNote none rfl (by decide) (by decide)

/-- C2: with an empty or whitespace-only trimmed title or content, `saveNote` dispatches no request, alerts the validation message, and leaves the entire component state exactly as it was. -/
theorem C2_validation_blocks_request (s : AppState) (saveResp : Option Nat) (listResp : Option (Nat × List Note))
    (h : strTrim s.currentNote.title = "" ∨ strTrim s.currentNote.content = "") :
    (saveNote s saveResp listResp).requests = [] ∧
    (saveNote s saveResp listResp).state = s ∧
    (saveNote s saveResp listResp).alerts = ["Please fill in both title and content"] := by
  unfold saveNote
  rw [if_pos h]
  exact ⟨rfl, rfl, rfl⟩

/-- Witness for C2 at a whitespace-only title. -/
theorem C2_validation_blocks_request_witness :
    (saveNote blankTitleState (some 200) none).requests = [] ∧
    (saveNote blankTitleState (some 200) none).state = blankTitleState ∧
    (saveNote blankTitleState (some 200) none).alerts =
      ["Please fill in both title and content"] :=
  C2_validation_blocks_request blankTitleState (some 200) none (Or.inl (by decide))

/-- C5: an empty or whitespace-only query makes `handleSearch` clear the displayed results and return without dispatching anything; no other state field changes. -/
theorem C5_empty_query_short_circuit (s : AppState) (resp : Option (Nat × SearchResponse))
    (h : strTrim s.searchQuery = "") :
    (handleSearch s resp).state = { s with searchResults := [] } ∧
    (handleSearch s resp).requests = [] := by
  unfold handleSearch
  rw [if_pos h]
  exact ⟨rfl, rfl⟩

/-- Witness for C5 at a whitespace-only query. -/
theorem C5_empty_query_short_circuit_witness :
    (handleSearch { searchState with searchQuery := "  " } (some (200, secondResp))).state =
      { { searchState with searchQuery := "  " } with searchResults := [] } ∧
    (handleSearch { searchState with searchQuery := "  " } (some (200, secondResp))).requests = [] :=
  C5_empty_query_short_circuit { searchState with searchQuery := "  " }
    (some (200, secondResp)) (by decide)

/-- C4: after a successful save (create or update) or a successful delete whose follow-up list fetch succeeds with body `L`, the cache is exactly `L` — independent of its previous contents, so never patched or merged — and a `GET /notes` refresh is among the dispatched requests. -/
theorem C4_success_refreshes_cache (s : AppState) (st stl delSt id : Nat) (L : List Note)
    (hs : isOk st = true) (hl : isOk stl = true) (hd : isOk delSt = true)
    (ht : ¬ strTrim s.currentNote.title = "") (hc : ¬ strTrim s.currentNote.content = "") :
    (saveNote s (some st) (some (stl, L))).state.notes = L ∧
    Request.listNotes 50 ∈ (saveNote s (some st) (some (stl, L))).requests ∧
    (deleteNoteRun s id true (some delSt) (some (stl, L))).state.notes = L ∧
    Request.listNotes 50 ∈ (deleteNoteRun s id true (some delSt) (some (stl, L))).requests := by
  unfold saveNote deleteNoteRun
  rw [if_neg (by simp [ht, hc])]
  simp [hs, hd, hl, fetchNotesRun, closeModal]

/-- Witness for C4: a 200 save and a 204 delete, each followed by a 200 list fetch returning `[sampleNote]`, starting from a state whose cache held something else. -/
theorem C4_success_refreshes_cache_witness :
    (saveNote editingState (some 200) (some (200, [sampleNote]))).state.notes = [sampleNote] ∧
    Request.listNotes 50 ∈ (saveNote editingState (some 200) (some (200, [sampleNote]))).requests ∧
    (deleteNoteRun editingState 7 true (some 204) (some (200, [sampleNote]))).state.notes = [sampleNote] ∧
    Request.listNotes 50 ∈ (deleteNoteRun editingState 7 true (some 204) (some (200, [sampleNote]))).requests :=
  C4_success_refreshes_cache editingState 200 200 204 7 [sampleNote]
    rfl rfl rfl (by decide) (by decide)

/-- C7: with at least two matched chunks, exactly the first two are rendered — each a quoted prefix of at most 100 characters with an ellipsis appended — and every later chunk is dropped. -/
theorem C7_excerpts_first_two (c0 c1 : String) (rest : List String) :
    renderedExcerpts (c0 :: c1 :: rest) =
      ["\"" ++ c0.take 100 ++ "...\"", "\"" ++ c1.take 100 ++ "...\""] := by
  rfl

/-- C9: a failed search on a non-empty query — network error or non-2xx status — leaves the previously displayed results untouched. -/
theorem C9_failed_search_keeps_results (s : AppState) (resp : Option (Nat × SearchResponse))
    (hq : ¬ strTrim s.searchQuery = "")
    (hfail : resp = none ∨ ∃ st body, resp = some (st, body) ∧ isOk st = false) :
    (handleSearch s resp).state.searchResults = s.searchResults := by
  unfold handleSearch
  rw [if_neg hq]
  rcases hfail with h | ⟨st, body, h, hst⟩
  · subst h
    rfl
  · subst h
    simp [handleSearchComplete, hst]

/-- Witness for C9: a 500 answer to the concrete pending search leaves the old displayed result in place. -/
theorem C9_failed_search_keeps_results_witness :
    (handleSearch searchState (some (500, secondResp))).state.searchResults =
      searchState.searchResults :=
  C9_failed_search_keeps_results searchState (some (500, secondResp)) (by decide)
    (Or.inr ⟨500, secondResp, rfl, rfl⟩)

/-- C10: closing the modal resets the session — `editingNote` cleared, modal closed, draft back to the all-default record (empty title, content and tags, is_public false, version 1) — and a subsequent create-mode open starts from exactly those defaults. -/
theorem C10_close_resets_session (s s2 : AppState) :
    (closeModal s).editingNote = none ∧
    (closeModal s).isModalOpen = false ∧
    (closeModal s).currentNote = defaultDraft ∧
    (openModal s2 none).editingNote = none ∧
    (openModal s2 none).currentNote = defaultDraft ∧
    defaultDraft =
      { title := "", content := "", is_public := false, tags := "", version := 1 } :=
  ⟨rfl, rfl, rfl, rfl, rfl, rfl⟩

/-- C3 counterexample: two overlapping searches are dispatched; the second-initiated one completes first with a hit, then the stale first completion arrives with no hits and overwrites it. The final display is the stale first call's result set, not the most recently initiated call's — there is no generation check discarding it. -/
theorem C3_stale_overwrite_counterexample :
    (handleSearchComplete
       (handleSearchComplete
          (handleSearchStart (handleSearchStart searchState).1).1
          (some (200, secondResp))).1
       (some (200, firstResp))).1.searchResults = firstResp.results ∧
    (handleSearchComplete
       (handleSearchComplete
          (handleSearchStart (handleSearchStart searchState).1).1
          (some (200, secondResp))).1
       (some (200, firstResp))).1.searchResults ≠ secondResp.results := by
  decide

/-- C3 amended: `handleSearch` has no generation counter, so the display follows completion order, not initiation order: with two overlapping dispatched searches on a non-empty query, both answered ok, whichever completion is applied last determines the displayed results — here the first-initiated (stale) call completes last and its results are shown. -/
theorem C3_last_completion_wins (s : AppState) (ra rb : SearchResponse) (sta stb : Nat)
    (hq : ¬ strTrim s.searchQuery = "")
    (ha : isOk sta = true) (hb : isOk stb = true) :
    (handleSearchComplete
       (handleSearchComplete
          (handleSearchStart (handleSearchStart s).1).1
          (some (stb, rb))).1
       (some (sta, ra))).1.searchResults = ra.results := by
  unfold handleSearchStart handleSearchComplete
  simp [hq, ha, hb]

/-- Witness for C3 amended at the concrete overlap scenario. -/
theorem C3_last_completion_wins_witness :
    (handleSearchComplete
       (handleSearchComplete
          (handleSearchStart (handleSearchStart searchState).1).1
          (some (200, secondResp))).1
       (some (200, firstResp))).1.searchResults = firstResp.results :=
  C3_last_completion_wins searchState firstResp secondResp 200 200 (by decide) rfl rfl

/-- C6 counterexample: a 500 answer to an update in the concrete editing session produces no alert and not even a console log — the transport failure is not reported to the user, contradicting the claim's reporting clause. -/
theorem C6_unreported_transport_counterexample :
    (saveNote editingState (some 500) none).alerts = [] ∧
    (saveNote editingState (some 500) none).logs = [] := by
  decide

/-- C6 amended: on any transport failure — a non-2xx status other than 409, or a thrown network error — the operation is abandoned after its single dispatched request (no retry, no refresh) and the prior cache, draft, session and displayed results are preserved; but no alert is shown to the user, and only thrown network errors leave a console log. -/
theorem C6_transport_abandon_preserves (s : AppState) (st id : Nat) (L : List Note) (body : SearchResponse)
    (hst : isOk st = false) (h409 : st ≠ 409)
    (ht : ¬ strTrim s.currentNote.title = "") (hc : ¬ strTrim s.currentNote.content = "")
    (hq : ¬ strTrim s.searchQuery = "") :
    ((saveNote s (some st) none).alerts = [] ∧
     (saveNote s (some st) none).requests = [saveRequest s] ∧
     (saveNote s (some st) none).state.notes = s.notes ∧
     (saveNote s (some st) none).state.currentNote = s.currentNote ∧
     (saveNote s (some st) none).state.editingNote = s.editingNote ∧
     (saveNote s (some st) none).state.isModalOpen = s.isModalOpen) ∧
    ((saveNote s none none).alerts = [] ∧
     (saveNote s none none).requests = [saveRequest s] ∧
     (saveNote s none none).state.currentNote = s.currentNote ∧
     (saveNote s none none).logs = ["Failed to save note:"]) ∧
    ((deleteNoteRun s id true (some st) none).state = s ∧
     (deleteNoteRun s id true (some st) none).requests = [Request.deleteNote id] ∧
     (deleteNoteRun s id true (some st) none).alerts = []) ∧
    ((fetchNotesRun s (some (st, L))).state.notes = s.notes ∧
     (fetchNotesRun s (some (st, L))).alerts = []) ∧
    ((handleSearch s (some (st, body))).state.searchResults = s.searchResults ∧
     (handleSearch s (some (st, body))).requests.length = 1 ∧
     (handleSearch s (some (st, body))).alerts = []) := by
  refine ⟨?_, ?_, ?_, ?_, ?_⟩
  · unfold saveNote
    rw [if_neg (by simp [ht, hc])]
    simp [hst, h409]
  · unfold saveNote
    rw [if_neg (by simp [ht, hc])]
    exact ⟨rfl, rfl, rfl, rfl⟩
  · unfold deleteNoteRun
    simp [hst]
  · unfold fetchNotesRun
    simp [hst]
  · unfold handleSearch
    rw [if_neg hq]
    simp [handleSearchComplete, hst]

/-- Witness for C6 amended at the concrete editing session, a 500 status, and the concrete search body. -/
theorem C6_transport_abandon_preserves_witness :
    ((saveNote editingState (some 500) none).alerts = [] ∧
     (saveNote editingState (some 500) none).requests = [saveRequest editingState] ∧
     (saveNote editingState (some 500) none).state.notes = editingState.notes ∧
     (saveNote editingState (some 500) none).state.currentNote = editingState.currentNote ∧
     (saveNote editingState (some 500) none).state.editingNote = editingState.editingNote ∧
     (saveNote editingState (some 500) none).state.isModalOpen = editingState.isModalOpen) ∧
    ((saveNote editingState none none).alerts = [] ∧
     (saveNote editingState none none).requests = [saveRequest editingState] ∧
     (saveNote editingState none none).state.currentNote = editingState.currentNote ∧
     (saveNote editingState none none).logs = ["Failed to save note:"]) ∧
    ((deleteNoteRun editingState 7 true (some 500) none).state = editingState ∧
     (deleteNoteRun editingState 7 true (some 500) none).requests = [Request.deleteNote 7] ∧
     (deleteNoteRun editingState 7 true (some 500) none).alerts = []) ∧
    ((fetchNotesRun editingState (some (500, []))).state.notes = editingState.notes ∧
     (fetchNotesRun editingState (some (500, []))).alerts = []) ∧
    ((handleSearch editingState (some (500, firstResp))).state.searchResults =
        editingState.searchResults ∧
     (handleSearch editingState (some (500, firstResp))).requests.length = 1 ∧
     (handleSearch editingState (some (500, firstResp))).alerts = []) :=
  C6_transport_abandon_preserves editingState 500 7 [] firstResp rfl (by decide)
    (by decide) (by decide) (by decide)

/-- Concrete create-mode state with a valid draft, used by the C8 witness. -/
def createState : AppState :=
  { editingState with
    editingNote := none,
    currentNote := { title := "a", content := "b", is_public := false,
                     tags := "", version := 1 } }

/-- C8: the create body is exactly title, content, is_public and tags — the `CreatePayload` type carries no version and no view_count field, and no payload type in `Request` carries view_count — while the update body is the full draft, whose `version` still equals the note's version captured at modal-open time after any sequence of modal field edits. -/
theorem C8_payload_discipline (s sc : AppState) (n : Note) (es : List DraftEdit)
    (saveResp : Option Nat) (listResp : Option (Nat × List Note))
    (ht : ¬ strTrim (es.foldl editDraft (openModal s (some n))).currentNote.title = "")
    (hc : ¬ strTrim (es.foldl editDraft (openModal s (some n))).currentNote.content = "")
    (hce : sc.editingNote = none)
    (htc : ¬ strTrim sc.currentNote.title = "") (hcc : ¬ strTrim sc.currentNote.content = "") :
    (es.foldl editDraft (openModal s (some n))).currentNote.version = n.version ∧
    (saveNote (es.foldl editDraft (openModal s (some n))) saveResp listResp).requests.head? =
      some (Request.updateNote n.id
        (es.foldl editDraft (openModal s (some n))).currentNote) ∧
    (saveNote sc saveResp listResp).requests.head? =
      some (Request.createNote
        { title := sc.currentNote.title, content := sc.currentNote.content,
          is_public := sc.currentNote.is_public, tags := sc.currentNote.tags }) := by
  have he : (es.foldl editDraft (openModal s (some n))).editingNote = some n := by
    rw [foldl_editDraft_editingNote]
    rfl
  refine ⟨?_, ?_, ?_⟩
  · rw [foldl_editDraft_version]
    rfl
  · rw [saveNote_requests_head _ saveResp listResp ht hc]
    unfold saveRequest
    rw [he]
  · rw [saveNote_requests_head _ saveResp listResp htc hcc]
    unfold saveRequest
    rw [hce]

/-- Witness for C8: open on `sampleNote`, edit the content and tags, then save; and a concrete create. -/
theorem C8_payload_discipline_witness :
    ([DraftEdit.setContent "newc", DraftEdit.setTags "x"].foldl editDraft
        (openModal searchState (some sampleNote))).currentNote.version = sampleNote.version ∧
    (saveNote ([DraftEdit.setContent "newc", DraftEdit.setTags "x"].foldl editDraft
        (openModal searchState (some sampleNote))) (some 409) none).requests.head? =
      some (Request.updateNote sampleNote.id
        ([DraftEdit.setContent "newc", DraftEdit.setTags "x"].foldl editDraft
          (openModal searchState (some sampleNote))).currentNote) ∧
    (saveNote createState (some 409) none).requests.head? =
      some (Request.createNote
        { title := createState.currentNote.title, content := createState.currentNote.content,
          is_public := createState.currentNote.is_public,
          tags := createState.currentNote.tags }) :=
  C8_payload_discipline searchState createState sampleNote
    [DraftEdit.setContent "newc", DraftEdit.setTags "x"] (some 409) none
    (by decide) (by decide) rfl (by decide) (by decide)

end NotesApp
